import Mathlib

/-!
Shallow embedding of the BAC0 network-topology subsystem:
`Alias.whois_router_to_network`, `Alias.use_router`,
`Alias.what_is_network_number` (src/BAC0/core/functions/Alias.py) and the
`Base.routing_table` property (src/BAC0/scripts/Base.py).

The external bacpypes3 protocol engine is an opaque collaborator: its
request/response primitives are parameters (`probe`, transport outcomes),
and its two associative stores (`router_dnets`, `path_info`) are modelled
as ordered association lists, matching Python dict insertion-order
iteration semantics.  The subsystem's own writes into those stores and
into the learned-network set are modelled from the spec's point-mutation
contract.
-/

namespace BAC0Spec

/-- A BACnet network address.  bacpypes3 `Address` objects have value-based
equality; `render` models Python `str(address)`. -/
structure Addr where
  render : String
deriving DecidableEq, Repr

/-- Router-entry status values (bacpypes3 `RouterEntryStatus`, external
type; the spec lists these four values, and only `available` is ever
written by this subsystem). -/
inductive PathStatus where
  | available
  | disconnected
  | unreachable
  | busy
deriving DecidableEq, Repr

/-- Log severity used by `self.log(...)` / `self._log` calls. -/
inductive LogLevel where
  | info
  | warning
deriving DecidableEq, Repr

/-- One emitted log line: severity plus message text. -/
structure LogEvent where
  level : LogLevel
  msg : String
deriving DecidableEq, Repr

/-- An I-Am reply to a Who-Is probe (opaque: only list emptiness is
inspected by `use_router`, via Python truthiness of the response list). -/
abbrev IAm := Nat

/-- First-match lookup in an association list (Python `dict[k]` /
`k in dict`). -/
def lookupA {K V : Type} [DecidableEq K] (k : K) : List (K × V) → Option V
  | [] => none
  | (k', v) :: rest => if k' = k then some v else lookupA k rest

/-- Python `dict[k] = v`: replace the value at the first occurrence of the
key, keeping its position in iteration order, else append at the end. -/
def setA {K V : Type} [DecidableEq K] (k : K) (v : V) : List (K × V) → List (K × V)
  | [] => [(k, v)]
  | (k', v') :: rest =>
      if k' = k then (k, v) :: rest else (k', v') :: setA k v rest

/-- Python `set.add`: insert if absent, leave unchanged if present. -/
def insertS (x : Int) (l : List Int) : List Int :=
  if x ∈ l then l else l ++ [x]

/-- The shared mutable state this subsystem reads and writes:
the engine's `router_info_cache` two maps (`router_dnets`, `path_info`),
the application's learned-network set, and a record of the
`update_router_references` invocations handed to the engine (the
engine's own internal routing update is a black box; we record the call
as the observable effect). -/
structure EngineState where
  router_dnets : List ((Option Int × Addr) × List Int)
  path_info : List ((Option Int × Int) × (Addr × PathStatus))
  learnedNetworks : List Int
  routerRefCalls : List (Option Int × Addr × List Int)
deriving DecidableEq, Repr

/-- The `address` element of a `use_router` tuple: either already a
bacpypes3 `Address` or a string to be parsed (`Address(address)`). -/
inductive AddrInput where
  | addr (a : Addr)
  | str (s : String)
deriving DecidableEq, Repr

/-- The `dnets` element of a `use_router` tuple: a bare int or a list
(`if not isinstance(dnets, list): dnets = [dnets]`). -/
inductive DnetsInput where
  | one (n : Int)
  | many (l : List Int)
deriving DecidableEq, Repr

/-- The `router_infos` argument of `use_router`; a 2-tuple in Python makes
`router_infos[2]` raise IndexError, caught and turned into `snet = None`,
so `snet` is already optional here. -/
structure RouterInfos where
  address : AddrInput
  dnets : DnetsInput
  snet : Option Int
deriving DecidableEq, Repr

/-- Address coercion at the top of `use_router`:
`if not isinstance(address, Address): address = Address(address)`.
`parse` is the external `Address` constructor; `none` means it raises. -/
def coerceAddr (parse : String → Option Addr) : AddrInput → Option Addr
  | .addr a => some a
  | .str s => parse s

/-- Dnets coercion: `if not isinstance(dnets, list): dnets = [dnets]`. -/
def coerceDnets : DnetsInput → List Int
  | .one n => [n]
  | .many l => l

/-- Modelled from the spec: the engine's `router_info_cache.set_path_info`
point-mutation (spec §6: the stores are "exposed for both read and
explicit point-mutation"; §4.2 step 4: "write
`path_info[(source_network, dnet)] = (address, available)`"), and the
application's `_learnedNetworks.add` (the `BAC0Application` class of
`BAC0/core/app/asyncApp.py` is not under src/; the spec describes
LearnedNetworkSet as a `set<int>` grown by adding each registered dnet).
One iteration of the `for each in dnets:` loop body in `use_router`. -/
def registerDnet (snet : Option Int) (address : Addr) (t : EngineState) (d : Int) :
    EngineState :=
  { t with
    path_info := setA (snet, d) (address, PathStatus.available) t.path_info,
    learnedNetworks := insertS d t.learnedNetworks }

/-- The `for each in dnets:` loop of `use_router`. -/
def registerDnets (snet : Option Int) (address : Addr) (dnets : List Int)
    (t : EngineState) : EngineState :=
  dnets.foldl (registerDnet snet address) t

/-- `Alias.use_router` (src/BAC0/core/functions/Alias.py:190-227).
`parse` is the external `Address` constructor, `probe` the directed
`who_is` device-discovery primitive (the liveness check).  Returns the
updated state together with the log lines emitted, or `.error` when the
address cannot be parsed (the raised exception). -/
def use_router (parse : String → Option Addr) (probe : Addr → List IAm)
    (rin : RouterInfos) (s : EngineState) :
    Except String (EngineState × List LogEvent) :=
  match coerceAddr parse rin.address with
  | none => .error "invalid address"
  | some address =>
    let dnets := coerceDnets rin.dnets
    let response := probe address
    if response.isEmpty then
      .ok (s, [⟨.warning, "Router not found at " ++ address.render⟩])
    else
      let s1 : EngineState :=
        { s with routerRefCalls := s.routerRefCalls ++ [(rin.snet, address, dnets)] }
      let s2 := registerDnets rin.snet address dnets s1
      .ok (s2,
        [⟨.info, "Router found at " ++ address.render⟩,
         ⟨.info, "Adding router reference"⟩,
         ⟨.info, "Updating router info cache"⟩])

/-- Outcome of one time-bounded engine request wrapped in
`asyncio.wait_for(..., timeout)`: either the engine's reply arrived in
time, or `asyncio.TimeoutError` was raised (the transport never replied
within the timeout). -/
inductive TransportOutcome (α : Type) where
  | reply (a : α)
  | timeout
deriving DecidableEq, Repr

/-- The destination value actually handed to an engine request primitive
after `whois_router_to_network`'s coercion. `raw` covers the Python edge
case of a falsy non-None string (empty string) passed through untouched. -/
inductive DestVal where
  | noDest
  | raw (s : String)
  | addr (a : Addr)
  | globalBcast
deriving DecidableEq, Repr

/-- Destination coercion in `whois_router_to_network`
(src/BAC0/core/functions/Alias.py:154-157):
`if destination and not isinstance(destination, Address): destination =
Address(destination)` — a truthy (non-empty) string is parsed, which can
raise (`none` here); `elif global_broadcast: destination =
GlobalBroadcast()`; otherwise the value is passed through unchanged. -/
def resolveDest (parse : String → Option Addr) (destination : Option String)
    (globalBroadcast : Bool) : Option DestVal :=
  match destination with
  | some s =>
      if s.isEmpty then
        if globalBroadcast then some DestVal.globalBcast else some (DestVal.raw s)
      else (parse s).map DestVal.addr
  | none =>
      if globalBroadcast then some DestVal.globalBcast else some DestVal.noDest

/-- `Alias.whois_router_to_network` (src/BAC0/core/functions/Alias.py:136-173).
`outcome` is what `asyncio.wait_for(_app.nse.who_is_router_to_network(
destination=destination, network=network), timeout)` resolves to for a
given (destination, network) request.  On a reply the raw network-number
list is returned; on timeout the error is caught, a warning logged and
`[]` returned.  `.error` is a raised `Address` parse failure. -/
def whois_router_to_network (parse : String → Option Addr) (network : Option Int)
    (destination : Option String) (globalBroadcast : Bool) (timeout : Nat)
    (outcome : DestVal → Option Int → TransportOutcome (List Int)) :
    Except String (List Int × List LogEvent) :=
  match resolveDest parse destination globalBroadcast with
  | none => .error "invalid destination address"
  | some dest =>
    match outcome dest network with
    | .reply ns => .ok (ns, [])
    | .timeout =>
        .ok ([], [⟨.warning, "Request timed out for whois_router_to_network, no response"⟩])

/-- `Alias.what_is_network_number` (src/BAC0/core/functions/Alias.py:229-252).
The code calls `_app.nse.what_is_network_number()` with no destination
argument at all, so the request always goes out as a local broadcast;
the first component of the result records the destination actually sent
to the engine.  On timeout the error is caught, a warning logged and
`None` returned. -/
def what_is_network_number (destination : Option String) (timeout : Nat)
    (outcome : DestVal → TransportOutcome Int) :
    DestVal × Option Int × List LogEvent :=
  match outcome DestVal.noDest with
  | .reply n => (DestVal.noDest, some n, [])
  | .timeout =>
      (DestVal.noDest, none,
       [⟨.warning, "Request timed out for what_is_network_number, no response"⟩])

/-- The `Router` record class built inside `Base.routing_table`
(src/BAC0/scripts/Base.py:315-328). -/
structure Router where
  source_network : Option Int
  address : Addr
  destination_networks : List Int
  path : List ((Option Int × Int) × PathStatus)
deriving DecidableEq, Repr

/-- Step 1 of `routing_table` (src/BAC0/scripts/Base.py:334-336): for each
`(snet, address) -> dnets` entry of `router_dnets`, in iteration order,
`self._routers[str(address)] = Router(snet, address, dnets, path=[])`. -/
def buildRouters (rd : List ((Option Int × Addr) × List Int)) :
    List (String × Router) :=
  rd.foldl (fun acc e => setA e.1.2.render ⟨e.1.1, e.1.2, e.2, []⟩ acc) []

/-- `self._routers[str(router_address)].path.append((path, router_status))`
(src/BAC0/scripts/Base.py:340): append to the path of the record at the
given key, in place; `none` is the KeyError raised when the key is
absent. -/
def appendPath (k : String) (e : (Option Int × Int) × PathStatus) :
    List (String × Router) → Option (List (String × Router))
  | [] => none
  | (k', r) :: rest =>
      if k' = k then some ((k', { r with path := r.path ++ [e] }) :: rest)
      else (appendPath k e rest).map (fun rest' => (k', r) :: rest')

/-- Step 2 of `routing_table` (src/BAC0/scripts/Base.py:337-340): fold
`path_info` into the router records; an entry whose router address is not
a key of the records dict raises KeyError. -/
def foldPaths (acc : List (String × Router)) :
    List ((Option Int × Int) × (Addr × PathStatus)) →
    Except String (List (String × Router))
  | [] => .ok acc
  | (p, ri) :: rest =>
      match appendPath ri.1.render (p, ri.2) acc with
      | some acc' => foldPaths acc' rest
      | none => .error ("KeyError: " ++ ri.1.render)

/-- The `Base.routing_table` property (src/BAC0/scripts/Base.py:304-342):
a projection of the engine cache's two maps into a dict keyed by the
router's string-rendered address. -/
def routing_table (s : EngineState) : Except String (List (String × Router)) :=
  foldPaths (buildRouters s.router_dnets) s.path_info

/-- One call into this subsystem, with the environment behavior (transport
outcomes) that call races against. -/
inductive Op where
  | opUseRouter (rin : RouterInfos)
  | opWhoisRouter (network : Option Int) (destination : Option String)
      (globalBroadcast : Bool) (timeout : Nat)
      (outcome : DestVal → Option Int → TransportOutcome (List Int))
  | opWhatIsNetworkNumber (destination : Option String) (timeout : Nat)
      (outcome : DestVal → TransportOutcome Int)
  | opRoutingTable

/-- Effect of one subsystem call on the shared state.  The discovery
primitives and the `routing_table` projection perform no cache mutation;
`use_router` that raises on an unparseable address leaves the state as it
was (the exception fires before any mutation). -/
def stepOp (parse : String → Option Addr) (probe : Addr → List IAm)
    (s : EngineState) : Op → EngineState
  | .opUseRouter rin =>
      match use_router parse probe rin s with
      | .ok (s', _) => s'
      | .error _ => s
  | .opWhoisRouter _ _ _ _ _ => s
  | .opWhatIsNetworkNumber _ _ _ => s
  | .opRoutingTable => s

/-- Run a sequence of subsystem calls from an initial state. -/
def runOps (parse : String → Option Addr) (probe : Addr → List IAm)
    (ops : List Op) (s : EngineState) : EngineState :=
  ops.foldl (stepOp parse probe) s

/-- The last element of a list satisfying a predicate (the "later entry in
iteration order wins" winner for a dict-key collision). -/
def findLast {α : Type} (p : α → Prop) [DecidablePred p] : List α → Option α
  | [] => none
  | x :: xs =>
    match findLast p xs with
    | some y => some y
    | none => if p x then some x else none

/-- Number of records stored under a given key in the routers view. -/
def countKey (k : String) : List (String × Router) → Nat
  | [] => 0
  | (k', _) :: rest => (if k' = k then 1 else 0) + countKey k rest

/-- The collision-relevant part of a `Router` record: everything written
in step 1 of `routing_table` (step 2 only ever appends to `path`). -/
def dropPath (r : Router) : Option Int × Addr × List Int :=
  (r.source_network, r.address, r.destination_networks)

/-! Association-list and set-insert lemmas. -/

theorem lookupA_setA_self {K V : Type} [DecidableEq K] (k : K) (v : V)
    (l : List (K × V)) : lookupA k (setA k v l) = some v := by
  induction l with
  | nil => simp [setA, lookupA]
  | cons hd tl ih =>
    obtain ⟨k', v'⟩ := hd
    by_cases h : k' = k
    · simp [setA, h, lookupA]
    · simp [setA, h, lookupA, ih]

theorem lookupA_setA_other {K V : Type} [DecidableEq K] {k k' : K}
    (hne : k' ≠ k) (v : V) (l : List (K × V)) :
    lookupA k (setA k' v l) = lookupA k l := by
  induction l with
  | nil => simp [setA, lookupA, hne]
  | cons hd tl ih =>
    obtain ⟨k0, v0⟩ := hd
    by_cases h : k0 = k'
    · subst h
      simp [setA, lookupA, hne]
    · simp [setA, h, lookupA, ih]

theorem setA_eq_of_lookup {K V : Type} [DecidableEq K] {k : K} {v : V}
    {l : List (K × V)} (h : lookupA k l = some v) : setA k v l = l := by
  induction l with
  | nil => simp [lookupA] at h
  | cons hd tl ih =>
    obtain ⟨k0, v0⟩ := hd
    by_cases hk : k0 = k
    · subst hk
      simp [lookupA] at h
      simp [setA, h]
    · simp [lookupA, hk] at h
      simp [setA, hk, ih h]

theorem lookupA_setA_isSome {K V : Type} [DecidableEq K] (k k' : K) (v : V)
    (l : List (K × V)) (h : (lookupA k l).isSome = true) :
    (lookupA k (setA k' v l)).isSome = true := by
  by_cases hk : k' = k
  · subst hk
    simp [lookupA_setA_self]
  · rwa [lookupA_setA_other hk]

theorem mem_insertS_self (x : Int) (l : List Int) : x ∈ insertS x l := by
  by_cases h : x ∈ l <;> simp [insertS, h]

theorem mem_insertS_of_mem {x : Int} (y : Int) {l : List Int} (h : x ∈ l) :
    x ∈ insertS y l := by
  by_cases hy : y ∈ l <;> simp [insertS, hy, h]

theorem insertS_eq_of_mem {x : Int} {l : List Int} (h : x ∈ l) :
    insertS x l = l := by
  simp [insertS, h]

/-! Lemmas on the `use_router` registration loop. -/

theorem registerDnets_cons (snet : Option Int) (a : Addr) (d : Int)
    (ds : List Int) (t : EngineState) :
    registerDnets snet a (d :: ds) t = registerDnets snet a ds (registerDnet snet a t d) := rfl

theorem registerDnets_router_dnets (snet : Option Int) (a : Addr)
    (ds : List Int) (t : EngineState) :
    (registerDnets snet a ds t).router_dnets = t.router_dnets := by
  induction ds generalizing t with
  | nil => rfl
  | cons d ds ih => rw [registerDnets_cons, ih]; rfl

theorem registerDnets_routerRefCalls (snet : Option Int) (a : Addr)
    (ds : List Int) (t : EngineState) :
    (registerDnets snet a ds t).routerRefCalls = t.routerRefCalls := by
  induction ds generalizing t with
  | nil => rfl
  | cons d ds ih => rw [registerDnets_cons, ih]; rfl

theorem registerDnet_lookup_self (snet : Option Int) (a : Addr)
    (t : EngineState) (d : Int) :
    lookupA (snet, d) (registerDnet snet a t d).path_info
      = some (a, PathStatus.available) := by
  simp [registerDnet, lookupA_setA_self]

theorem registerDnet_lookup_preserved (snet : Option Int) (a : Addr)
    (t : EngineState) (d d' : Int)
    (h : lookupA (snet, d) t.path_info = some (a, PathStatus.available)) :
    lookupA (snet, d) (registerDnet snet a t d').path_info
      = some (a, PathStatus.available) := by
  by_cases hd : d' = d
  · subst hd
    exact registerDnet_lookup_self snet a t d'
  · have hne : ((snet, d') : Option Int × Int) ≠ (snet, d) := by
      simp [hd]
    simp [registerDnet, lookupA_setA_other hne, h]

theorem registerDnets_lookup_preserved (snet : Option Int) (a : Addr)
    (ds : List Int) (t : EngineState) (d : Int)
    (h : lookupA (snet, d) t.path_info = some (a, PathStatus.available)) :
    lookupA (snet, d) (registerDnets snet a ds t).path_info
      = some (a, PathStatus.available) := by
  induction ds generalizing t with
  | nil => exact h
  | cons d' ds ih =>
    rw [registerDnets_cons]
    exact ih _ (registerDnet_lookup_preserved snet a t d d' h)

theorem registerDnets_lookup_of_mem (snet : Option Int) (a : Addr)
    (ds : List Int) (t : EngineState) (d : Int) (hd : d ∈ ds) :
    lookupA (snet, d) (registerDnets snet a ds t).path_info
      = some (a, PathStatus.available) := by
  induction ds generalizing t with
  | nil => cases hd
  | cons d' ds ih =>
    rw [registerDnets_cons]
    rcases List.mem_cons.mp hd with h | h
    · subst h
      exact registerDnets_lookup_preserved snet a ds _ d
        (registerDnet_lookup_self snet a t d)
    · exact ih _ h

theorem registerDnet_learned_mono (snet : Option Int) (a : Addr)
    (t : EngineState) (d x : Int) (h : x ∈ t.learnedNetworks) :
    x ∈ (registerDnet snet a t d).learnedNetworks :=
  mem_insertS_of_mem d h

theorem registerDnets_learned_mono (snet : Option Int) (a : Addr)
    (ds : List Int) (t : EngineState) (x : Int) (h : x ∈ t.learnedNetworks) :
    x ∈ (registerDnets snet a ds t).learnedNetworks := by
  induction ds generalizing t with
  | nil => exact h
  | cons d ds ih =>
    rw [registerDnets_cons]
    exact ih _ (registerDnet_learned_mono snet a t d x h)

theorem registerDnets_learned_of_mem (snet : Option Int) (a : Addr)
    (ds : List Int) (t : EngineState) (d : Int) (hd : d ∈ ds) :
    d ∈ (registerDnets snet a ds t).learnedNetworks := by
  induction ds generalizing t with
  | nil => cases hd
  | cons d' ds ih =>
    rw [registerDnets_cons]
    rcases List.mem_cons.mp hd with h | h
    · subst h
      exact registerDnets_learned_mono snet a ds _ d (mem_insertS_self d _)
    · exact ih _ h

theorem registerDnet_eq_of_registered (snet : Option Int) (a : Addr)
    (t : EngineState) (d : Int)
    (h1 : lookupA (snet, d) t.path_info = some (a, PathStatus.available))
    (h2 : d ∈ t.learnedNetworks) :
    registerDnet snet a t d = t := by
  simp [registerDnet, setA_eq_of_lookup h1, insertS_eq_of_mem h2]

theorem registerDnets_eq_of_registered (snet : Option Int) (a : Addr)
    (ds : List Int) (t : EngineState)
    (h : ∀ d ∈ ds, lookupA (snet, d) t.path_info = some (a, PathStatus.available)
          ∧ d ∈ t.learnedNetworks) :
    registerDnets snet a ds t = t := by
  induction ds with
  | nil => rfl
  | cons d ds ih =>
    rw [registerDnets_cons,
        registerDnet_eq_of_registered snet a t d
          (h d (List.mem_cons_self d ds)).1 (h d (List.mem_cons_self d ds)).2]
    exact ih (fun d' hd' => h d' (List.mem_cons_of_mem d hd'))

theorem registerDnets_path_isSome (snet : Option Int) (a : Addr)
    (ds : List Int) (t : EngineState) (k : Option Int × Int)
    (h : (lookupA k t.path_info).isSome = true) :
    (lookupA k (registerDnets snet a ds t).path_info).isSome = true := by
  induction ds generalizing t with
  | nil => exact h
  | cons d ds ih =>
    rw [registerDnets_cons]
    exact ih _ (lookupA_setA_isSome k (snet, d) (a, PathStatus.available) _ h)

theorem use_router_run_success (parse : String → Option Addr)
    (probe : Addr → List IAm) (rin : RouterInfos) (s : EngineState) (a : Addr)
    (hparse : coerceAddr parse rin.address = some a)
    (hprobe : (probe a).isEmpty = false) :
    use_router parse probe rin s =
      .ok (registerDnets rin.snet a (coerceDnets rin.dnets)
             { s with routerRefCalls :=
                 s.routerRefCalls ++ [(rin.snet, a, coerceDnets rin.dnets)] },
           [⟨LogLevel.info, "Router found at " ++ a.render⟩,
            ⟨LogLevel.info, "Adding router reference"⟩,
            ⟨LogLevel.info, "Updating router info cache"⟩]) := by
  simp [use_router, hparse, hprobe]

/-- Claim C1: for a parseable address, if the directed who_is probe against the
address returns a non-empty response, then after `use_router` completes
the engine's router-reference update has been invoked with
`(source_network, address, dnets)`, every `d` in `dnets` has
`path_info[(source_network, d)] = (address, available)`, and every `d` in
`dnets` is in the learned-network set. -/
theorem use_router_registers_on_probe_success (parse : String → Option Addr)
    (probe : Addr → List IAm) (rin : RouterInfos) (s : EngineState) (a : Addr)
    (hparse : coerceAddr parse rin.address = some a)
    (hprobe : (probe a).isEmpty = false) :
    ∃ s' log, use_router parse probe rin s = .ok (s', log) ∧
      (rin.snet, a, coerceDnets rin.dnets) ∈ s'.routerRefCalls ∧
      ∀ d ∈ coerceDnets rin.dnets,
        lookupA (rin.snet, d) s'.path_info = some (a, PathStatus.available) ∧
        d ∈ s'.learnedNetworks := by
  refine ⟨_, _, use_router_run_success parse probe rin s a hparse hprobe, ?_, ?_⟩
  · rw [registerDnets_routerRefCalls]
    simp
  · intro d hd
    exact ⟨registerDnets_lookup_of_mem _ _ _ _ _ hd,
           registerDnets_learned_of_mem _ _ _ _ _ hd⟩

/-- Closed instance of the C1 theorem at a concrete environment and
input, with the hypotheses discharged by computation. -/
theorem use_router_registers_on_probe_success_witness :
    ∃ s' log,
      use_router (fun str => some ⟨str⟩) (fun _ => [1])
          ⟨AddrInput.str "2:5", DnetsInput.many [10, 11], none⟩
          ⟨[], [], [], []⟩ = .ok (s', log) ∧
      (none, (⟨"2:5"⟩ : Addr), [(10 : Int), 11]) ∈ s'.routerRefCalls ∧
      ∀ d ∈ [(10 : Int), 11],
        lookupA (none, d) s'.path_info
          = some ((⟨"2:5"⟩ : Addr), PathStatus.available) ∧
        d ∈ s'.learnedNetworks :=
  use_router_registers_on_probe_success (fun str => some ⟨str⟩) (fun _ => [1])
    ⟨AddrInput.str "2:5", DnetsInput.many [10, 11], none⟩
    ⟨[], [], [], []⟩ ⟨"2:5"⟩ rfl rfl

/-- Claim C2: for a parseable address, if the directed who_is probe returns an
empty response, `use_router` returns normally with the state completely
unchanged (router_dnets, path_info, learned networks and router-reference
calls all untouched) and only a warning logged. -/
theorem use_router_noop_on_probe_failure (parse : String → Option Addr)
    (probe : Addr → List IAm) (rin : RouterInfos) (s : EngineState) (a : Addr)
    (hparse : coerceAddr parse rin.address = some a)
    (hprobe : probe a = []) :
    use_router parse probe rin s =
      .ok (s, [⟨LogLevel.warning, "Router not found at " ++ a.render⟩]) := by
  simp [use_router, hparse, hprobe]

/-- Closed instance of the C2 theorem at a concrete environment and
input. -/
theorem use_router_noop_on_probe_failure_witness :
    use_router (fun str => some ⟨str⟩) (fun _ => ([] : List IAm))
        ⟨AddrInput.str "2:5", DnetsInput.many [10, 11], none⟩
        ⟨[((some 1, ⟨"9:9"⟩), [3])], [], [7], []⟩ =
      .ok (⟨[((some 1, ⟨"9:9"⟩), [3])], [], [7], []⟩,
           [⟨LogLevel.warning, "Router not found at 2:5"⟩]) :=
  use_router_noop_on_probe_failure (fun str => some ⟨str⟩)
    (fun _ => ([] : List IAm))
    ⟨AddrInput.str "2:5", DnetsInput.many [10, 11], none⟩
    ⟨[((some 1, ⟨"9:9"⟩), [3])], [], [7], []⟩ ⟨"2:5"⟩ rfl rfl

/-- Claim C5: when the probe succeeds, running `use_router` twice with identical
arguments leaves the router-info cache (router_dnets and path_info) and
the learned-network set in the same state as running it once. -/
theorem use_router_idempotent (parse : String → Option Addr)
    (probe : Addr → List IAm) (rin : RouterInfos) (s s1 : EngineState)
    (a : Addr) (log1 : List LogEvent)
    (hparse : coerceAddr parse rin.address = some a)
    (hprobe : (probe a).isEmpty = false)
    (h1 : use_router parse probe rin s = .ok (s1, log1)) :
    ∃ s2 log2, use_router parse probe rin s1 = .ok (s2, log2) ∧
      s2.router_dnets = s1.router_dnets ∧
      s2.path_info = s1.path_info ∧
      s2.learnedNetworks = s1.learnedNetworks := by
  rw [use_router_run_success parse probe rin s a hparse hprobe] at h1
  simp only [Except.ok.injEq, Prod.mk.injEq] at h1
  obtain ⟨hs1, -⟩ := h1
  have hreg : ∀ d ∈ coerceDnets rin.dnets,
      lookupA (rin.snet, d) s1.path_info = some (a, PathStatus.available) ∧
      d ∈ s1.learnedNetworks := by
    intro d hd
    rw [← hs1]
    exact ⟨registerDnets_lookup_of_mem _ _ _ _ _ hd,
           registerDnets_learned_of_mem _ _ _ _ _ hd⟩
  refine ⟨_, _, use_router_run_success parse probe rin s1 a hparse hprobe, ?_⟩
  have hid : registerDnets rin.snet a (coerceDnets rin.dnets)
      { s1 with routerRefCalls :=
          s1.routerRefCalls ++ [(rin.snet, a, coerceDnets rin.dnets)] } =
      { s1 with routerRefCalls :=
          s1.routerRefCalls ++ [(rin.snet, a, coerceDnets rin.dnets)] } :=
    registerDnets_eq_of_registered rin.snet a (coerceDnets rin.dnets) _
      (fun d hd => hreg d hd)
  rw [hid]
  exact ⟨rfl, rfl, rfl⟩

/-- Closed instance of the C5 theorem: the second identical call leaves
both cache maps and the learned-network set exactly as after the first. -/
theorem use_router_idempotent_witness :
    ∃ s2 log2,
      use_router (fun str => some ⟨str⟩) (fun _ => [1])
          ⟨AddrInput.str "2:5", DnetsInput.many [10, 11], none⟩
          ⟨[], [((none, 10), (⟨"2:5"⟩, PathStatus.available)),
               ((none, 11), (⟨"2:5"⟩, PathStatus.available))],
            [10, 11], [(none, ⟨"2:5"⟩, [10, 11])]⟩ = .ok (s2, log2) ∧
      s2.router_dnets =
        (⟨[], [((none, 10), (⟨"2:5"⟩, PathStatus.available)),
              ((none, 11), (⟨"2:5"⟩, PathStatus.available))],
           [10, 11], [(none, ⟨"2:5"⟩, [10, 11])]⟩ : EngineState).router_dnets ∧
      s2.path_info =
        (⟨[], [((none, 10), (⟨"2:5"⟩, PathStatus.available)),
              ((none, 11), (⟨"2:5"⟩, PathStatus.available))],
           [10, 11], [(none, ⟨"2:5"⟩, [10, 11])]⟩ : EngineState).path_info ∧
      s2.learnedNetworks =
        (⟨[], [((none, 10), (⟨"2:5"⟩, PathStatus.available)),
              ((none, 11), (⟨"2:5"⟩, PathStatus.available))],
           [10, 11], [(none, ⟨"2:5"⟩, [10, 11])]⟩ : EngineState).learnedNetworks :=
  use_router_idempotent (fun str => some ⟨str⟩) (fun _ => [1])
    ⟨AddrInput.str "2:5", DnetsInput.many [10, 11], none⟩
    ⟨[], [], [], []⟩ _ ⟨"2:5"⟩ _ rfl rfl rfl

theorem use_router_state_cases (parse : String → Option Addr)
    (probe : Addr → List IAm) (rin : RouterInfos) (s s' : EngineState)
    (log : List LogEvent)
    (h : use_router parse probe rin s = .ok (s', log)) :
    s' = s ∨ ∃ a, s' = registerDnets rin.snet a (coerceDnets rin.dnets)
      { s with routerRefCalls :=
          s.routerRefCalls ++ [(rin.snet, a, coerceDnets rin.dnets)] } := by
  cases hc : coerceAddr parse rin.address with
  | none =>
    rw [show use_router parse probe rin s = .error "invalid address" from
          by simp [use_router, hc]] at h
    cases h
  | some a =>
    by_cases hp : (probe a).isEmpty = true
    · rw [show use_router parse probe rin s =
            .ok (s, [⟨LogLevel.warning, "Router not found at " ++ a.render⟩]) from
            by simp [use_router, hc, hp]] at h
      simp only [Except.ok.injEq, Prod.mk.injEq] at h
      exact Or.inl h.1.symm
    · rw [use_router_run_success parse probe rin s a hc
            (Bool.not_eq_true _ ▸ hp)] at h
      simp only [Except.ok.injEq, Prod.mk.injEq] at h
      exact Or.inr ⟨a, h.1.symm⟩

/-- Claim C3: against a transport that never replies within the timeout,
`whois_router_to_network` returns the empty list and
`what_is_network_number` returns `none`; both log a warning and return
normally (the timeout condition is absorbed, not re-raised). -/
theorem discovery_timeout_soft_failure (parse : String → Option Addr)
    (network : Option Int) (destination destination2 : Option String)
    (globalBroadcast : Bool) (timeout timeout2 : Nat) (dest : DestVal)
    (outcomeW : DestVal → Option Int → TransportOutcome (List Int))
    (outcomeN : DestVal → TransportOutcome Int)
    (hdest : resolveDest parse destination globalBroadcast = some dest)
    (hW : ∀ d n, outcomeW d n = TransportOutcome.timeout)
    (hN : ∀ d, outcomeN d = TransportOutcome.timeout) :
    whois_router_to_network parse network destination globalBroadcast timeout outcomeW =
      .ok ([], [⟨LogLevel.warning,
        "Request timed out for whois_router_to_network, no response"⟩]) ∧
    what_is_network_number destination2 timeout2 outcomeN =
      (DestVal.noDest, none, [⟨LogLevel.warning,
        "Request timed out for what_is_network_number, no response"⟩]) := by
  constructor
  · simp [whois_router_to_network, hdest, hW]
  · simp [what_is_network_number, hN]

/-- Closed instance of the C3 theorem against an always-timing-out
transport. -/
theorem discovery_timeout_soft_failure_witness :
    whois_router_to_network (fun str => some ⟨str⟩) (some 99) none false 1
        (fun _ _ => TransportOutcome.timeout) =
      .ok ([], [⟨LogLevel.warning,
        "Request timed out for whois_router_to_network, no response"⟩]) ∧
    what_is_network_number none 1 (fun _ => TransportOutcome.timeout) =
      (DestVal.noDest, none, [⟨LogLevel.warning,
        "Request timed out for what_is_network_number, no response"⟩]) :=
  discovery_timeout_soft_failure (fun str => some ⟨str⟩) (some 99) none none
    false 1 1 DestVal.noDest (fun _ _ => TransportOutcome.timeout)
    (fun _ => TransportOutcome.timeout) rfl (fun _ _ => rfl) (fun _ => rfl)

/-- Claim C9: when the transport replies, `whois_router_to_network` returns the
raw network-number list reported by the engine, and the call leaves the
whole shared state (router_dnets, path_info, learned networks) unchanged. -/
theorem whois_router_success_no_mutation (parse : String → Option Addr)
    (probe : Addr → List IAm) (network : Option Int)
    (destination : Option String) (globalBroadcast : Bool) (timeout : Nat)
    (outcome : DestVal → Option Int → TransportOutcome (List Int))
    (dest : DestVal) (ns : List Int) (s : EngineState)
    (hdest : resolveDest parse destination globalBroadcast = some dest)
    (hreply : outcome dest network = TransportOutcome.reply ns) :
    whois_router_to_network parse network destination globalBroadcast timeout outcome
      = .ok (ns, []) ∧
    stepOp parse probe s
      (Op.opWhoisRouter network destination globalBroadcast timeout outcome) = s :=
  ⟨by simp [whois_router_to_network, hdest, hreply], rfl⟩

/-- Closed instance of the C9 theorem: a reply of [20, 30] is returned raw
and the state is untouched. -/
theorem whois_router_success_no_mutation_witness :
    whois_router_to_network (fun str => some ⟨str⟩) (some 99) none false 3
        (fun _ _ => TransportOutcome.reply [20, 30]) = .ok ([20, 30], []) ∧
    stepOp (fun str => some ⟨str⟩) (fun _ => [1])
        ⟨[((none, ⟨"2:5"⟩), [10])], [], [10], []⟩
        (Op.opWhoisRouter (some 99) none false 3
          (fun _ _ => TransportOutcome.reply [20, 30])) =
      ⟨[((none, ⟨"2:5"⟩), [10])], [], [10], []⟩ :=
  whois_router_success_no_mutation (fun str => some ⟨str⟩) (fun _ => [1])
    (some 99) none false 3 (fun _ _ => TransportOutcome.reply [20, 30])
    DestVal.noDest [20, 30] ⟨[((none, ⟨"2:5"⟩), [10])], [], [10], []⟩ rfl rfl

/-- Claim C10: the `destination` parameter of `what_is_network_number` has no
effect: two calls differing only in it produce identical results, and the
request is always sent to the engine without a destination (local
broadcast). -/
theorem what_is_network_number_ignores_destination
    (d1 d2 : Option String) (timeout : Nat)
    (outcome : DestVal → TransportOutcome Int) :
    what_is_network_number d1 timeout outcome
      = what_is_network_number d2 timeout outcome ∧
    (what_is_network_number d1 timeout outcome).1 = DestVal.noDest := by
  refine ⟨rfl, ?_⟩
  unfold what_is_network_number
  cases outcome DestVal.noDest <;> rfl

/-- C8 step lemma: a single subsystem call never removes a router_dnets
entry, never drops a path_info key, and never removes a learned network. -/
theorem stepOp_cache_monotone (parse : String → Option Addr)
    (probe : Addr → List IAm) (s : EngineState) (op : Op) :
    (stepOp parse probe s op).router_dnets = s.router_dnets ∧
    (∀ x ∈ s.learnedNetworks, x ∈ (stepOp parse probe s op).learnedNetworks) ∧
    (∀ k, (lookupA k s.path_info).isSome = true →
      (lookupA k (stepOp parse probe s op).path_info).isSome = true) := by
  cases op with
  | opWhoisRouter _ _ _ _ _ => exact ⟨rfl, fun x hx => hx, fun k hk => hk⟩
  | opWhatIsNetworkNumber _ _ _ => exact ⟨rfl, fun x hx => hx, fun k hk => hk⟩
  | opRoutingTable => exact ⟨rfl, fun x hx => hx, fun k hk => hk⟩
  | opUseRouter rin =>
    cases hur : use_router parse probe rin s with
    | error e =>
      have hstep : stepOp parse probe s (Op.opUseRouter rin) = s := by
        simp [stepOp, hur]
      rw [hstep]
      exact ⟨rfl, fun x hx => hx, fun k hk => hk⟩
    | ok p =>
      obtain ⟨s', log⟩ := p
      have hstep : stepOp parse probe s (Op.opUseRouter rin) = s' := by
        simp [stepOp, hur]
      rw [hstep]
      rcases use_router_state_cases parse probe rin s s' log hur with h | ⟨a, h⟩
      · subst h; exact ⟨rfl, fun x hx => hx, fun k hk => hk⟩
      · subst h
        refine ⟨registerDnets_router_dnets _ _ _ _, ?_, ?_⟩
        · intro x hx; exact registerDnets_learned_mono _ _ _ _ _ hx
        · intro k hk; exact registerDnets_path_isSome _ _ _ _ _ hk

/-- Claim C8: over any sequence of `use_router`, discovery and `routing_table`
calls, the subsystem never removes a router_dnets entry, never drops a
path_info key (overwrites keep the key), and the learned-network set
grows monotonically. -/
theorem subsystem_cache_monotone (parse : String → Option Addr)
    (probe : Addr → List IAm) (ops : List Op) (s : EngineState) :
    (runOps parse probe ops s).router_dnets = s.router_dnets ∧
    (∀ x ∈ s.learnedNetworks, x ∈ (runOps parse probe ops s).learnedNetworks) ∧
    (∀ k, (lookupA k s.path_info).isSome = true →
      (lookupA k (runOps parse probe ops s).path_info).isSome = true) := by
  induction ops generalizing s with
  | nil => exact ⟨rfl, fun x hx => hx, fun k hk => hk⟩
  | cons op ops ih =>
    obtain ⟨hd, hl, hp⟩ := stepOp_cache_monotone parse probe s op
    obtain ⟨ihd, ihl, ihp⟩ := ih (stepOp parse probe s op)
    exact ⟨ihd.trans hd, fun x hx => ihl x (hl x hx),
           fun k hk => ihp k (hp k hk)⟩

/-- Closed instance of the C8 theorem over a concrete run: an existing
learned network and an existing path key survive a mixed call sequence,
and router_dnets is untouched. -/
theorem subsystem_cache_monotone_witness :
    (runOps (fun str => some ⟨str⟩) (fun _ => [1])
        [Op.opUseRouter ⟨AddrInput.str "2:5", DnetsInput.many [10, 11], none⟩,
         Op.opWhoisRouter (some 99) none false 3 (fun _ _ => TransportOutcome.timeout),
         Op.opRoutingTable,
         Op.opWhatIsNetworkNumber none 3 (fun _ => TransportOutcome.timeout)]
        ⟨[((some 1, ⟨"9:9"⟩), [3])],
         [((some 1, 3), (⟨"9:9"⟩, PathStatus.available))], [7], []⟩).router_dnets =
      [((some 1, ⟨"9:9"⟩), [3])] ∧
    ((7 : Int) ∈ (runOps (fun str => some ⟨str⟩) (fun _ => [1])
        [Op.opUseRouter ⟨AddrInput.str "2:5", DnetsInput.many [10, 11], none⟩,
         Op.opWhoisRouter (some 99) none false 3 (fun _ _ => TransportOutcome.timeout),
         Op.opRoutingTable,
         Op.opWhatIsNetworkNumber none 3 (fun _ => TransportOutcome.timeout)]
        ⟨[((some 1, ⟨"9:9"⟩), [3])],
         [((some 1, 3), (⟨"9:9"⟩, PathStatus.available))], [7], []⟩).learnedNetworks) ∧
    (lookupA (some 1, 3) (runOps (fun str => some ⟨str⟩) (fun _ => [1])
        [Op.opUseRouter ⟨AddrInput.str "2:5", DnetsInput.many [10, 11], none⟩,
         Op.opWhoisRouter (some 99) none false 3 (fun _ _ => TransportOutcome.timeout),
         Op.opRoutingTable,
         Op.opWhatIsNetworkNumber none 3 (fun _ => TransportOutcome.timeout)]
        ⟨[((some 1, ⟨"9:9"⟩), [3])],
         [((some 1, 3), (⟨"9:9"⟩, PathStatus.available))], [7], []⟩).path_info).isSome
      = true :=
  ⟨(subsystem_cache_monotone (fun str => some ⟨str⟩) (fun _ => [1]) _ _).1,
   (subsystem_cache_monotone (fun str => some ⟨str⟩) (fun _ => [1]) _ _).2.1 7
     (by decide),
   (subsystem_cache_monotone (fun str => some ⟨str⟩) (fun _ => [1]) _ _).2.2
     (some 1, 3) (by decide)⟩

/-! Lemmas on the `routing_table` projection. -/

theorem lookupA_eq_none_iff {K V : Type} [DecidableEq K] (k : K)
    (l : List (K × V)) : lookupA k l = none ↔ k ∉ l.map Prod.fst := by
  induction l with
  | nil => simp [lookupA]
  | cons hd tl ih =>
    obtain ⟨k0, v0⟩ := hd
    by_cases h : k0 = k
    · simp [lookupA, h]
    · simp [lookupA, h, ih, Ne.symm h]

theorem appendPath_eq_none_iff {k : String} {e : (Option Int × Int) × PathStatus}
    {rs : List (String × Router)} :
    appendPath k e rs = none ↔ lookupA k rs = none := by
  induction rs with
  | nil => simp [appendPath, lookupA]
  | cons hd tl ih =>
    obtain ⟨k0, r0⟩ := hd
    by_cases h : k0 = k
    · simp [appendPath, h, lookupA]
    · simp [appendPath, h, lookupA, ih]

theorem appendPath_keys {k : String} {e : (Option Int × Int) × PathStatus}
    {rs rs' : List (String × Router)} (h : appendPath k e rs = some rs') :
    rs'.map Prod.fst = rs.map Prod.fst := by
  induction rs generalizing rs' with
  | nil => simp [appendPath] at h
  | cons hd tl ih =>
    obtain ⟨k0, r0⟩ := hd
    by_cases hk : k0 = k
    · simp only [appendPath, if_pos hk, Option.some.injEq] at h
      rw [← h]
      rfl
    · simp only [appendPath, if_neg hk] at h
      cases happ : appendPath k e tl with
      | none => rw [happ] at h; cases h
      | some tl' =>
        rw [happ] at h
        simp only [Option.map_some', Option.some.injEq] at h
        rw [← h]
        simp [ih happ]

theorem appendPath_skeleton {k : String} {e : (Option Int × Int) × PathStatus}
    {rs rs' : List (String × Router)} (h : appendPath k e rs = some rs') :
    rs'.map (fun p => (p.1, dropPath p.2)) = rs.map (fun p => (p.1, dropPath p.2)) := by
  induction rs generalizing rs' with
  | nil => simp [appendPath] at h
  | cons hd tl ih =>
    obtain ⟨k0, r0⟩ := hd
    by_cases hk : k0 = k
    · simp only [appendPath, if_pos hk, Option.some.injEq] at h
      rw [← h]
      rfl
    · simp only [appendPath, if_neg hk] at h
      cases happ : appendPath k e tl with
      | none => rw [happ] at h; cases h
      | some tl' =>
        rw [happ] at h
        simp only [Option.map_some', Option.some.injEq] at h
        rw [← h]
        simp [ih happ]

theorem foldPaths_keys {ps : List ((Option Int × Int) × (Addr × PathStatus))}
    {acc m : List (String × Router)} (h : foldPaths acc ps = .ok m) :
    m.map Prod.fst = acc.map Prod.fst := by
  induction ps generalizing acc with
  | nil =>
    simp only [foldPaths, Except.ok.injEq] at h
    rw [h]
  | cons p ps ih =>
    obtain ⟨pp, ri⟩ := p
    cases happ : appendPath ri.1.render (pp, ri.2) acc with
    | none => simp [foldPaths, happ] at h
    | some acc' =>
      simp only [foldPaths, happ] at h
      exact (ih h).trans (appendPath_keys happ)

theorem foldPaths_skeleton {ps : List ((Option Int × Int) × (Addr × PathStatus))}
    {acc m : List (String × Router)} (h : foldPaths acc ps = .ok m) :
    m.map (fun p => (p.1, dropPath p.2)) = acc.map (fun p => (p.1, dropPath p.2)) := by
  induction ps generalizing acc with
  | nil =>
    simp only [foldPaths, Except.ok.injEq] at h
    rw [h]
  | cons p ps ih =>
    obtain ⟨pp, ri⟩ := p
    cases happ : appendPath ri.1.render (pp, ri.2) acc with
    | none => simp [foldPaths, happ] at h
    | some acc' =>
      simp only [foldPaths, happ] at h
      exact (ih h).trans (appendPath_skeleton happ)

theorem foldPaths_error_of_orphan
    (ps : List ((Option Int × Int) × (Addr × PathStatus)))
    (acc : List (String × Router))
    (h : ∃ e ∈ ps, lookupA e.2.1.render acc = none) :
    ∃ msg, foldPaths acc ps = .error msg := by
  induction ps generalizing acc with
  | nil =>
    obtain ⟨e, he, -⟩ := h
    cases he
  | cons p ps ih =>
    obtain ⟨e, he, hnone⟩ := h
    obtain ⟨pp, ri⟩ := p
    cases happ : appendPath ri.1.render (pp, ri.2) acc with
    | none => exact ⟨"KeyError: " ++ ri.1.render, by simp [foldPaths, happ]⟩
    | some acc' =>
      rcases List.mem_cons.mp he with rfl | hrest
      · rw [appendPath_eq_none_iff.mpr hnone] at happ
        cases happ
      · have hnone' : lookupA e.2.1.render acc' = none := by
          rw [lookupA_eq_none_iff] at hnone ⊢
          rw [appendPath_keys happ]
          exact hnone
        obtain ⟨msg, hmsg⟩ := ih acc' ⟨e, hrest, hnone'⟩
        exact ⟨msg, by simp [foldPaths, happ, hmsg]⟩

theorem lookupA_routersFold_none
    (rd : List ((Option Int × Addr) × List Int))
    (acc : List (String × Router)) (k : String)
    (hacc : lookupA k acc = none)
    (h : ∀ kd ∈ rd, kd.1.2.render ≠ k) :
    lookupA k (rd.foldl
      (fun acc e => setA e.1.2.render ⟨e.1.1, e.1.2, e.2, []⟩ acc) acc) = none := by
  induction rd generalizing acc with
  | nil => exact hacc
  | cons e rd ih =>
    simp only [List.foldl_cons]
    refine ih _ ?_ (fun kd hkd => h kd (List.mem_cons_of_mem e hkd))
    rw [lookupA_setA_other (h e (List.mem_cons_self e rd)) _ acc]
    exact hacc

/-- Claim C4: if `path_info` contains an entry whose router address renders to
a string that is not the rendered address of any `router_dnets` key, then
evaluating `routing_table` raises (KeyError): the orphan path entry is
never silently dropped. -/
theorem routing_table_orphan_path_errors (s : EngineState)
    (h : ∃ e ∈ s.path_info, ∀ kd ∈ s.router_dnets, kd.1.2.render ≠ e.2.1.render) :
    ∃ msg, routing_table s = .error msg := by
  obtain ⟨e, he, horph⟩ := h
  show ∃ msg, foldPaths (buildRouters s.router_dnets) s.path_info = .error msg
  refine foldPaths_error_of_orphan s.path_info (buildRouters s.router_dnets)
    ⟨e, he, ?_⟩
  exact lookupA_routersFold_none s.router_dnets [] _ rfl horph

/-- Closed instance of the C4 theorem: a path entry naming router "9:9"
while router_dnets only knows "2:5" makes the view construction error. -/
theorem routing_table_orphan_path_errors_witness :
    ∃ msg, routing_table
      ⟨[((none, ⟨"2:5"⟩), [5])],
       [((none, 5), (⟨"9:9"⟩, PathStatus.available))], [], []⟩ = .error msg :=
  routing_table_orphan_path_errors
    ⟨[((none, ⟨"2:5"⟩), [5])],
     [((none, 5), (⟨"9:9"⟩, PathStatus.available))], [], []⟩
    ⟨((none, 5), (⟨"9:9"⟩, PathStatus.available)), by decide⟩

/-- Claim C6: `routing_table` is a deterministic function of the current
contents of the two cache maps and of nothing else: two states agreeing
on `router_dnets` and `path_info` yield equal views. -/
theorem routing_table_pure (s s' : EngineState)
    (h1 : s.router_dnets = s'.router_dnets)
    (h2 : s.path_info = s'.path_info) :
    routing_table s = routing_table s' := by
  unfold routing_table
  rw [h1, h2]

/-- Closed instance of the C6 theorem: two states with the same cache
maps but different learned networks and router-reference histories
produce the identical view. -/
theorem routing_table_pure_witness :
    routing_table
      ⟨[((none, ⟨"2:5"⟩), [10])],
       [((none, 10), (⟨"2:5"⟩, PathStatus.available))], [1], []⟩ =
    routing_table
      ⟨[((none, ⟨"2:5"⟩), [10])],
       [((none, 10), (⟨"2:5"⟩, PathStatus.available))], [2, 3],
       [(none, ⟨"2:5"⟩, [10])]⟩ :=
  routing_table_pure
    ⟨[((none, ⟨"2:5"⟩), [10])],
     [((none, 10), (⟨"2:5"⟩, PathStatus.available))], [1], []⟩
    ⟨[((none, ⟨"2:5"⟩), [10])],
     [((none, 10), (⟨"2:5"⟩, PathStatus.available))], [2, 3],
     [(none, ⟨"2:5"⟩, [10])]⟩ rfl rfl

/-! Lemmas for the address-collision behavior of `routing_table`. -/

theorem findLast_isSome_of_mem {α : Type} (p : α → Prop) [DecidablePred p]
    {l : List α} {x : α} (hx : x ∈ l) (hp : p x) :
    ∃ y, findLast p l = some y := by
  induction l with
  | nil => cases hx
  | cons a l ih =>
    rcases List.mem_cons.mp hx with rfl | h
    · cases hfl : findLast p l with
      | some y => exact ⟨y, by simp [findLast, hfl]⟩
      | none => exact ⟨x, by simp [findLast, hfl, hp]⟩
    · obtain ⟨y, hy⟩ := ih h
      exact ⟨y, by simp [findLast, hy]⟩

theorem lookupA_routersFold (rd : List ((Option Int × Addr) × List Int))
    (acc : List (String × Router)) (k : String) :
    lookupA k (rd.foldl
      (fun acc e => setA e.1.2.render ⟨e.1.1, e.1.2, e.2, []⟩ acc) acc) =
      match findLast (fun kd => kd.1.2.render = k) rd with
      | some e => some ⟨e.1.1, e.1.2, e.2, []⟩
      | none => lookupA k acc := by
  induction rd generalizing acc with
  | nil => rfl
  | cons e rd ih =>
    simp only [List.foldl_cons]
    rw [ih]
    cases hfl : findLast (fun kd => kd.1.2.render = k) rd with
    | some y => simp [findLast, hfl]
    | none =>
      simp only [findLast, hfl]
      by_cases he : e.1.2.render = k
      · rw [if_pos he, ← he, lookupA_setA_self]
      · rw [if_neg he, lookupA_setA_other he]

theorem countKey_setA_other {k k' : String} (hne : k' ≠ k) (v : Router)
    (l : List (String × Router)) :
    countKey k (setA k' v l) = countKey k l := by
  induction l with
  | nil => simp [setA, countKey, hne]
  | cons hd tl ih =>
    obtain ⟨k0, r0⟩ := hd
    by_cases h : k0 = k'
    · simp [setA, h, countKey, hne]
    · simp [setA, h, countKey, ih]

theorem countKey_zero_of_none {k : String} {l : List (String × Router)}
    (h : lookupA k l = none) : countKey k l = 0 := by
  induction l with
  | nil => rfl
  | cons hd tl ih =>
    obtain ⟨k0, r0⟩ := hd
    by_cases hk : k0 = k
    · simp [lookupA, hk] at h
    · simp [lookupA, hk] at h
      simp [countKey, hk, ih h]

theorem countKey_pos_of_isSome {k : String} {l : List (String × Router)}
    (h : (lookupA k l).isSome = true) : 1 ≤ countKey k l := by
  induction l with
  | nil => simp [lookupA] at h
  | cons hd tl ih =>
    obtain ⟨k0, r0⟩ := hd
    by_cases hk : k0 = k
    · simp [countKey, hk]
    · simp [lookupA, hk] at h
      simp only [countKey, if_neg hk]
      have := ih h
      omega

theorem countKey_setA_absent {k : String} {l : List (String × Router)}
    (h : lookupA k l = none) (v : Router) :
    countKey k (setA k v l) = countKey k l + 1 := by
  induction l with
  | nil => simp [setA, countKey]
  | cons hd tl ih =>
    obtain ⟨k0, r0⟩ := hd
    by_cases hk : k0 = k
    · simp [lookupA, hk] at h
    · simp [lookupA, hk] at h
      simp only [setA, if_neg hk, countKey, ih h]
      omega

theorem countKey_setA_present {k : String} {l : List (String × Router)}
    (h : (lookupA k l).isSome = true) (v : Router) :
    countKey k (setA k v l) = countKey k l := by
  induction l with
  | nil => simp [lookupA] at h
  | cons hd tl ih =>
    obtain ⟨k0, r0⟩ := hd
    by_cases hk : k0 = k
    · simp [setA, hk, countKey]
    · simp [lookupA, hk] at h
      simp [setA, hk, countKey, ih h]

theorem countKey_routersFold_le_one
    (rd : List ((Option Int × Addr) × List Int))
    (acc : List (String × Router)) (k : String)
    (hacc : countKey k acc ≤ 1) :
    countKey k (rd.foldl
      (fun acc e => setA e.1.2.render ⟨e.1.1, e.1.2, e.2, []⟩ acc) acc) ≤ 1 := by
  induction rd generalizing acc with
  | nil => exact hacc
  | cons e rd ih =>
    simp only [List.foldl_cons]
    refine ih _ ?_
    by_cases he : e.1.2.render = k
    · rw [he]
      cases hl : lookupA k acc with
      | none => rw [countKey_setA_absent hl, countKey_zero_of_none hl]
      | some r => rw [countKey_setA_present (by simp [hl])]; exact hacc
    · rw [countKey_setA_other he]
      exact hacc

theorem countKey_eq_of_keys {k : String} {rs rs' : List (String × Router)}
    (h : rs'.map Prod.fst = rs.map Prod.fst) :
    countKey k rs' = countKey k rs := by
  induction rs generalizing rs' with
  | nil =>
    have h0 : rs' = [] := by simpa using h
    rw [h0]
  | cons hd tl ih =>
    cases rs' with
    | nil =>
      simp only [List.map_nil, List.map_cons] at h
      exact List.noConfusion h
    | cons hd' tl' =>
      obtain ⟨k0, r0⟩ := hd
      obtain ⟨k0', r0'⟩ := hd'
      simp only [List.map_cons, List.cons.injEq] at h
      obtain ⟨h1, h2⟩ := h
      simp [countKey, h1, ih h2]

theorem lookupA_map_dropPath {k : String} {rs rs' : List (String × Router)}
    (h : rs'.map (fun p => (p.1, dropPath p.2)) = rs.map (fun p => (p.1, dropPath p.2))) :
    (lookupA k rs').map dropPath = (lookupA k rs).map dropPath := by
  induction rs generalizing rs' with
  | nil =>
    have h0 : rs' = [] := by simpa using h
    rw [h0]
  | cons hd tl ih =>
    cases rs' with
    | nil =>
      simp only [List.map_nil, List.map_cons] at h
      exact List.noConfusion h
    | cons hd' tl' =>
      obtain ⟨k0, r0⟩ := hd
      obtain ⟨k0', r0'⟩ := hd'
      simp only [List.map_cons, List.cons.injEq, Prod.mk.injEq] at h
      obtain ⟨⟨h1, h2⟩, h3⟩ := h
      by_cases hk : k0 = k
      · simp [lookupA, hk, h1, h2]
      · simp only [lookupA, h1, if_neg hk]
        exact ih h3

/-- Claim C7: when two `router_dnets` entries render to the same address
string, the successfully returned view holds exactly one record for that
key, and its source network, address and destination networks are those
of the entry appearing later in iteration order (the last matching
entry). -/
theorem routing_table_collision_last_wins (s : EngineState)
    (m : List (String × Router)) (key : String)
    (e1 e2 : (Option Int × Addr) × List Int)
    (h1 : e1 ∈ s.router_dnets) (h2 : e2 ∈ s.router_dnets) (hne : e1 ≠ e2)
    (hr1 : e1.1.2.render = key) (hr2 : e2.1.2.render = key)
    (hok : routing_table s = .ok m) :
    countKey key m = 1 ∧
    ∃ e r, findLast (fun kd => kd.1.2.render = key) s.router_dnets = some e ∧
      lookupA key m = some r ∧ dropPath r = (e.1.1, e.1.2, e.2) := by
  obtain ⟨e, hfl⟩ :=
    findLast_isSome_of_mem (fun kd => kd.1.2.render = key) h1 hr1
  have hbuild : lookupA key (buildRouters s.router_dnets)
      = some ⟨e.1.1, e.1.2, e.2, []⟩ := by
    rw [show buildRouters s.router_dnets = s.router_dnets.foldl
          (fun acc e => setA e.1.2.render ⟨e.1.1, e.1.2, e.2, []⟩ acc) [] from rfl,
        lookupA_routersFold, hfl]
  have hok' : foldPaths (buildRouters s.router_dnets) s.path_info = .ok m := hok
  have hdrop : (lookupA key m).map dropPath
      = (lookupA key (buildRouters s.router_dnets)).map dropPath :=
    lookupA_map_dropPath (foldPaths_skeleton hok')
  rw [hbuild] at hdrop
  simp only [Option.map_some'] at hdrop
  obtain ⟨r, hr, hrd⟩ := Option.map_eq_some'.mp hdrop
  refine ⟨?_, e, r, hfl, hr, by rw [hrd]; rfl⟩
  have hcount : countKey key m = countKey key (buildRouters s.router_dnets) :=
    countKey_eq_of_keys (foldPaths_keys hok')
  have hle : countKey key (buildRouters s.router_dnets) ≤ 1 :=
    countKey_routersFold_le_one s.router_dnets [] key (by simp [countKey])
  have hge : 1 ≤ countKey key (buildRouters s.router_dnets) :=
    countKey_pos_of_isSome (by simp [hbuild])
  omega

/-- Closed instance of the C7 theorem: source networks 1 and 2 both name
router "2:5"; the view keeps one record, built from the later entry. -/
theorem routing_table_collision_last_wins_witness :
    countKey "2:5" [("2:5", ⟨some 2, ⟨"2:5"⟩, [20], []⟩)] = 1 ∧
    ∃ e r, findLast (fun kd => kd.1.2.render = "2:5")
        [((some 1, (⟨"2:5"⟩ : Addr)), [(10 : Int)]), ((some 2, ⟨"2:5"⟩), [20])]
        = some e ∧
      lookupA "2:5" [("2:5", (⟨some 2, ⟨"2:5"⟩, [20], []⟩ : Router))] = some r ∧
      dropPath r = (e.1.1, e.1.2, e.2) :=
  routing_table_collision_last_wins
    ⟨[((some 1, ⟨"2:5"⟩), [10]), ((some 2, ⟨"2:5"⟩), [20])], [], [], []⟩
    [("2:5", ⟨some 2, ⟨"2:5"⟩, [20], []⟩)] "2:5"
    ((some 1, ⟨"2:5"⟩), [10]) ((some 2, ⟨"2:5"⟩), [20])
    (by decide) (by decide) (by decide) rfl rfl rfl

end BAC0Spec
